import Mathlib

/-!
Shallow embedding of `src/twitter.js` (a thin wrapper around a Twitter API
client) and proofs about its Request Facade and Media Upload Sequencer.

Conventions of the embedding:
* JavaScript runtime values that the wrapper actually inspects are modelled
  by `JsVal`; a JavaScript object is an association list of fields, and
  property access on a missing field yields `JsVal.undef` (as in JS).
* A synchronously thrown exception is the `Except.error` of the enclosing
  function; a settled promise is modelled by `Except err val` as well, with
  `Except.error` for a rejected promise and `Except.ok` for a resolved one.
* The external transport (`client.get` / `client.post`) is a parameter: a
  function from endpoint path and options to the promise's settled state.
  A run of the sequencer additionally records the trace of network calls it
  issued, in order, so temporal-ordering properties can be stated.
-/

deriving instance DecidableEq for Except

namespace Twitter

/-- A JavaScript value as far as this wrapper inspects one: a string, a
number, a byte buffer (Node `Buffer`), or `undefined`. -/
inductive JsVal : Type where
  | str (s : String)
  | num (n : Nat)
  | bytes (b : List Nat)
  | undef
deriving DecidableEq, Repr

/-- A JavaScript object: an ordered list of named fields. -/
def JsObject : Type := List (String × JsVal)

instance : DecidableEq JsObject := by
  unfold JsObject
  infer_instance

/-- JavaScript property access `o.k`: the first field named `k`, or
`undefined` when the object has no such field. -/
def getField (o : JsObject) (k : String) : JsVal :=
  match o.find? (fun p => p.1 = k) with
  | some p => p.2
  | none => JsVal.undef

/-- A JavaScript error value (thrown exception or promise rejection). -/
def JsErr : Type := String

instance : DecidableEq JsErr := by
  unfold JsErr
  infer_instance

/-- The raw bytes of a file (`fs.readFileSync` result). -/
def Buffer : Type := List Nat

instance : DecidableEq Buffer := by
  unfold Buffer
  infer_instance

/-- A JSON-like response body resolved by the transport. -/
def Response : Type := JsObject

instance : DecidableEq Response := by
  unfold Response
  infer_instance

/-! ## The Request Facade (src/twitter.js lines 30-133)

Each facade method forwards a fixed endpoint path and its options argument
to `execute` (GET) or `executePost` (POST), which delegate to the external
client.  The options and response types are opaque to the wrapper, so they
are type parameters here.  Each call to a transport primitive is recorded
in a trace so that call counts and arguments are observable. -/

/-- The HTTP verb of a transport primitive. -/
inductive Verb : Type where
  | read
  | write
deriving DecidableEq, Repr

/-- One invocation of a transport primitive: verb, endpoint path, and the
options value passed as second argument. -/
structure CallRec (α : Type) : Type where
  verb : Verb
  path : String
  options : α
deriving DecidableEq, Repr

/-- The external API client (`client` in the source): an authenticated
`get` and `post`, each returning the settled state of a promise. -/
structure Transport (α ρ ε : Type) : Type where
  get : String → α → Except ε ρ
  post : String → α → Except ε ρ

/-- `execute(path, options) { return client.get(path, options); }`
(lines 101-103): one GET call, result returned untouched. -/
def execute (t : Transport α ρ ε) (path : String) (options : α) :
    List (CallRec α) × Except ε ρ :=
  ([⟨Verb.read, path, options⟩], t.get path options)

/-- `executePost(path, options) { return client.post(path, options); }`
(lines 112-114): one POST call, result returned untouched. -/
def executePost (t : Transport α ρ ε) (path : String) (options : α) :
    List (CallRec α) × Except ε ρ :=
  ([⟨Verb.write, path, options⟩], t.post path options)

/-- `getRetweeters` (lines 30-32). -/
def getRetweeters (t : Transport α ρ ε) (options : α) :
    List (CallRec α) × Except ε ρ :=
  execute t "statuses/retweeters/ids" options

/-- `getRetweets` (lines 40-42). -/
def getRetweets (t : Transport α ρ ε) (options : α) :
    List (CallRec α) × Except ε ρ :=
  execute t "statuses/retweets" options

/-- `showTweet` (lines 50-52). -/
def showTweet (t : Transport α ρ ε) (options : α) :
    List (CallRec α) × Except ε ρ :=
  execute t "statuses/show" options

/-- `showUserTweets` (lines 60-62). -/
def showUserTweets (t : Transport α ρ ε) (options : α) :
    List (CallRec α) × Except ε ρ :=
  execute t "statuses/user_timeline" options

/-- `searchTweets` (lines 70-72). -/
def searchTweets (t : Transport α ρ ε) (options : α) :
    List (CallRec α) × Except ε ρ :=
  execute t "search/tweets" options

/-- `searchUsers` (lines 80-82). -/
def searchUsers (t : Transport α ρ ε) (options : α) :
    List (CallRec α) × Except ε ρ :=
  execute t "users/search" options

/-- `showUser` (lines 90-92). -/
def showUser (t : Transport α ρ ε) (options : α) :
    List (CallRec α) × Except ε ρ :=
  execute t "users/show" options

/-- `postStatus` (lines 121-123). -/
def postStatus (t : Transport α ρ ε) (options : α) :
    List (CallRec α) × Except ε ρ :=
  executePost t "statuses/update" options

/-- `sendMessage` (lines 131-133). -/
def sendMessage (t : Transport α ρ ε) (options : α) :
    List (CallRec α) × Except ε ρ :=
  executePost t "direct_messages/events/new" options

/-! ## The Media Upload Sequencer (src/twitter.js lines 140-191) -/

/-- One POST call issued by the sequencer: endpoint path and request body
(a JavaScript object literal). -/
structure Call : Type where
  path : String
  body : JsObject
deriving DecidableEq

/-- The synchronous file-system API used by `uploadPhoto`:
`fs.readFileSync` and `fs.statSync(...).size`, each of which may throw. -/
structure FS : Type where
  readFileSync : JsVal → Except JsErr Buffer
  statSize : JsVal → Except JsErr Nat

/-- The request built by the nested helper `initUpload` (lines 152-158):
`{command: 'INIT', total_bytes: mediaSize, media_type: mediaType}` posted
to `media/upload`. -/
def initUpload (mediaSize : Nat) (mediaType : JsVal) : Call :=
  ⟨"media/upload",
    [("command", JsVal.str "INIT"),
     ("total_bytes", JsVal.num mediaSize),
     ("media_type", mediaType)]⟩

/-- The request built by the nested helper `appendUpload` (lines 164-171):
`{command: 'APPEND', media_id: mediaId, media: mediaData, segment_index: 0}`
posted to `media/upload`. -/
def appendUpload (mediaId : JsVal) (mediaData : Buffer) : Call :=
  ⟨"media/upload",
    [("command", JsVal.str "APPEND"),
     ("media_id", mediaId),
     ("media", JsVal.bytes mediaData),
     ("segment_index", JsVal.num 0)]⟩

/-- The request built by the nested helper `finalizeUpload` (lines 177-182):
`{command: 'FINALIZE', media_id: mediaId}` posted to `media/upload`. -/
def finalizeUpload (mediaId : JsVal) : Call :=
  ⟨"media/upload", [("command", JsVal.str "FINALIZE"), ("media_id", mediaId)]⟩

/-- The observable behaviour of one run of the promise chain that
`uploadPhoto` returns: the POST calls issued in order, the error value
passed to `console.log` by the terminal `.catch` handler (if any), and the
settled state of the returned promise (`Except.ok none` models resolution
with `undefined`, the return value of `console.log`). -/
structure AsyncRun : Type where
  calls : List Call
  logged : Option JsErr
  outcome : Except JsErr (Option Response)
deriving DecidableEq

/-- The promise chain of `uploadPhoto` (lines 184-190):
`initUpload().then(response => { mediaId = response.media_id_string;
return appendUpload(mediaId); }).then(response => finalizeUpload(mediaId))
.catch(err => console.log(err))`.  Each step's settled result is consumed
before the next request is built; the closure variable `mediaId` is set
from the INIT response and reused by the FINALIZE step; the terminal catch
turns any rejection into a log line and a resolution with `undefined`. -/
def chain (post : Call → Except JsErr Response) (mediaSize : Nat)
    (mediaType : JsVal) (mediaData : Buffer) : AsyncRun :=
  let c1 := initUpload mediaSize mediaType
  match post c1 with
  | Except.error e => ⟨[c1], some e, Except.ok none⟩
  | Except.ok response =>
    let mediaId := getField response "media_id_string"
    let c2 := appendUpload mediaId mediaData
    match post c2 with
    | Except.error e => ⟨[c1, c2], some e, Except.ok none⟩
    | Except.ok _ =>
      let c3 := finalizeUpload mediaId
      match post c3 with
      | Except.error e => ⟨[c1, c2, c3], some e, Except.ok none⟩
      | Except.ok r3 => ⟨[c1, c2, c3], none, Except.ok (some r3)⟩

/-- `uploadPhoto(options)` (lines 140-191).  The synchronous prefix reads
`options.media_type` and `options.path_to_photo`, loads the file with
`fs.readFileSync` and queries its size with `fs.statSync(...).size`; a
throw from either surfaces as `Except.error` (a synchronous exception at
the call site, before any network call).  Otherwise the promise chain runs
against the POST transport. -/
def uploadPhoto (fs : FS) (post : Call → Except JsErr Response)
    (options : JsObject) : Except JsErr AsyncRun :=
  let mediaType := getField options "media_type"
  match fs.readFileSync (getField options "path_to_photo") with
  | Except.error e => Except.error e
  | Except.ok mediaData =>
    match fs.statSize (getField options "path_to_photo") with
    | Except.error e => Except.error e
    | Except.ok mediaSize =>
      Except.ok (chain post mediaSize mediaType mediaData)

/-- The `command` fields of the network calls a run of `uploadPhoto`
issued, in order; empty when `uploadPhoto` threw synchronously. -/
def issuedCommands (r : Except JsErr AsyncRun) : List JsVal :=
  match r with
  | Except.ok run => run.calls.map (fun c => getField c.body "command")
  | Except.error _ => []

/-! ## Fixtures for witnesses and counterexamples -/

/-- A file system on which both synchronous calls succeed; the byte buffer
has length 3 while the reported stat size is 99, so the two queries are
visibly independent. -/
def fsDemo : FS :=
  ⟨fun _ => Except.ok [10, 20, 30], fun _ => Except.ok 99⟩

/-- A file system on which `readFileSync` throws (missing file). -/
def fsBad : FS :=
  ⟨fun _ => Except.error "ENOENT", fun _ => Except.ok 99⟩

/-- A concrete options object, carrying one extra field beyond the two that
`uploadPhoto` reads. -/
def optsDemo : JsObject :=
  [("media_type", JsVal.str "image/jpeg"),
   ("path_to_photo", JsVal.str "cat.jpg"),
   ("extra", JsVal.str "ignored")]

/-- A transport whose every response carries `media_id_string = "711"`. -/
def postDemo : Call → Except JsErr Response :=
  fun _ => Except.ok [("media_id_string", JsVal.str "711")]

/-- A transport that resolves every call with an empty object: the INIT
response omits `media_id_string`. -/
def postNoId : Call → Except JsErr Response :=
  fun _ => Except.ok []

/-- A transport that rejects every call. -/
def postFail : Call → Except JsErr Response :=
  fun _ => Except.error "network down"

/-- A transport that resolves the INIT call (with a session id) and
rejects the APPEND call. -/
def postFailAppend : Call → Except JsErr Response :=
  fun c =>
    if getField c.body "command" = JsVal.str "APPEND" then
      Except.error "append down"
    else
      Except.ok [("media_id_string", JsVal.str "711")]

/-- The run produced by `fsDemo`, `postDemo` and `optsDemo`: all three
steps resolve, the session id is `"711"`, nothing is logged. -/
def runDemo : AsyncRun :=
  ⟨[initUpload 99 (JsVal.str "image/jpeg"),
    appendUpload (JsVal.str "711") [10, 20, 30],
    finalizeUpload (JsVal.str "711")],
   none,
   Except.ok (some [("media_id_string", JsVal.str "711")])⟩

/-- A transport whose both primitives reject with `"boom"`. -/
def tErr : Transport Nat Nat String :=
  ⟨fun _ _ => Except.error "boom", fun _ _ => Except.error "boom"⟩

/-- A second options object, agreeing with `optsDemo` on `media_type` and
`path_to_photo` but differing everywhere else. -/
def optsDemo2 : JsObject :=
  [("path_to_photo", JsVal.str "cat.jpg"),
   ("media_type", JsVal.str "image/jpeg"),
   ("other", JsVal.num 5)]

/-! ## Characterization of the promise chain (shared helper) -/

/-- Complete case analysis of one run of the promise chain: either INIT
rejects and the trace stops there; or INIT resolves and APPEND rejects; or
INIT and APPEND resolve and FINALIZE rejects; or all three resolve.  In
every case the trace, the logged error and the settled outcome are given
exactly. -/
theorem chain_spec (post : Call → Except JsErr Response) (mediaSize : Nat)
    (mediaType : JsVal) (mediaData : Buffer) :
    (∃ e, post (initUpload mediaSize mediaType) = Except.error e ∧
      chain post mediaSize mediaType mediaData =
        ⟨[initUpload mediaSize mediaType], some e, Except.ok none⟩) ∨
    (∃ r1 e, post (initUpload mediaSize mediaType) = Except.ok r1 ∧
      post (appendUpload (getField r1 "media_id_string") mediaData) =
        Except.error e ∧
      chain post mediaSize mediaType mediaData =
        ⟨[initUpload mediaSize mediaType,
          appendUpload (getField r1 "media_id_string") mediaData],
         some e, Except.ok none⟩) ∨
    (∃ r1 r2 e, post (initUpload mediaSize mediaType) = Except.ok r1 ∧
      post (appendUpload (getField r1 "media_id_string") mediaData) =
        Except.ok r2 ∧
      post (finalizeUpload (getField r1 "media_id_string")) =
        Except.error e ∧
      chain post mediaSize mediaType mediaData =
        ⟨[initUpload mediaSize mediaType,
          appendUpload (getField r1 "media_id_string") mediaData,
          finalizeUpload (getField r1 "media_id_string")],
         some e, Except.ok none⟩) ∨
    (∃ r1 r2 r3, post (initUpload mediaSize mediaType) = Except.ok r1 ∧
      post (appendUpload (getField r1 "media_id_string") mediaData) =
        Except.ok r2 ∧
      post (finalizeUpload (getField r1 "media_id_string")) =
        Except.ok r3 ∧
      chain post mediaSize mediaType mediaData =
        ⟨[initUpload mediaSize mediaType,
          appendUpload (getField r1 "media_id_string") mediaData,
          finalizeUpload (getField r1 "media_id_string")],
         none, Except.ok (some r3)⟩) := by
  cases h1 : post (initUpload mediaSize mediaType) with
  | error e =>
    refine Or.inl ⟨e, rfl, ?_⟩
    unfold chain
    simp [h1]
  | ok r1 =>
    cases h2 : post (appendUpload (getField r1 "media_id_string") mediaData) with
    | error e =>
      refine Or.inr (Or.inl ⟨r1, e, rfl, h2, ?_⟩)
      unfold chain
      simp [h1, h2]
    | ok r2 =>
      cases h3 : post (finalizeUpload (getField r1 "media_id_string")) with
      | error e =>
        refine Or.inr (Or.inr (Or.inl ⟨r1, r2, e, rfl, h2, h3, ?_⟩))
        unfold chain
        simp [h1, h2, h3]
      | ok r3 =>
        refine Or.inr (Or.inr (Or.inr ⟨r1, r2, r3, rfl, h2, h3, ?_⟩))
        unfold chain
        simp [h1, h2, h3]

/-- Successful synchronous prefix: when both file-system calls succeed,
`uploadPhoto` runs the chain on the stat size, the declared media type and
the buffer. -/
theorem uploadPhoto_ok (fs : FS) (post : Call → Except JsErr Response)
    (options : JsObject) (buf : Buffer) (n : Nat)
    (hr : fs.readFileSync (getField options "path_to_photo") = Except.ok buf)
    (hs : fs.statSize (getField options "path_to_photo") = Except.ok n) :
    uploadPhoto fs post options =
      Except.ok (chain post n (getField options "media_type") buf) := by
  unfold uploadPhoto
  simp [hr, hs]

/-! ## Field lookups on the three request bodies -/

@[simp]
theorem getField_initUpload_command (n : Nat) (mt : JsVal) :
    getField (initUpload n mt).body "command" = JsVal.str "INIT" := rfl

@[simp]
theorem getField_initUpload_total_bytes (n : Nat) (mt : JsVal) :
    getField (initUpload n mt).body "total_bytes" = JsVal.num n := rfl

@[simp]
theorem getField_initUpload_media_type (n : Nat) (mt : JsVal) :
    getField (initUpload n mt).body "media_type" = mt := rfl

@[simp]
theorem getField_appendUpload_command (mid : JsVal) (buf : Buffer) :
    getField (appendUpload mid buf).body "command" = JsVal.str "APPEND" := rfl

@[simp]
theorem getField_appendUpload_media_id (mid : JsVal) (buf : Buffer) :
    getField (appendUpload mid buf).body "media_id" = mid := rfl

@[simp]
theorem getField_appendUpload_media (mid : JsVal) (buf : Buffer) :
    getField (appendUpload mid buf).body "media" = JsVal.bytes buf := rfl

@[simp]
theorem getField_appendUpload_segment_index (mid : JsVal) (buf : Buffer) :
    getField (appendUpload mid buf).body "segment_index" = JsVal.num 0 := rfl

@[simp]
theorem getField_finalizeUpload_command (mid : JsVal) :
    getField (finalizeUpload mid).body "command" = JsVal.str "FINALIZE" := rfl

@[simp]
theorem getField_finalizeUpload_media_id (mid : JsVal) :
    getField (finalizeUpload mid).body "media_id" = mid := rfl

/-! ## Claim theorems -/

/-- Claim C1: for every upload on which the synchronous prefix succeeds,
the network calls issued form a prefix of the sequence INIT request,
APPEND request, FINALIZE request, in that order; the APPEND request exists
in the trace only when the INIT call resolved (and its body is built from
the INIT response), and the FINALIZE request exists only when the APPEND
call also resolved.  Thus each step resolves before the next request is
constructed. -/
theorem upload_call_order (fs : FS) (post : Call → Except JsErr Response)
    (options : JsObject) (buf : Buffer) (n : Nat)
    (hr : fs.readFileSync (getField options "path_to_photo") = Except.ok buf)
    (hs : fs.statSize (getField options "path_to_photo") = Except.ok n) :
    ∃ run, uploadPhoto fs post options = Except.ok run ∧
      (run.calls = [initUpload n (getField options "media_type")] ∨
       (∃ r1, post (initUpload n (getField options "media_type")) =
            Except.ok r1 ∧
          run.calls = [initUpload n (getField options "media_type"),
            appendUpload (getField r1 "media_id_string") buf]) ∨
       (∃ r1 r2, post (initUpload n (getField options "media_type")) =
            Except.ok r1 ∧
          post (appendUpload (getField r1 "media_id_string") buf) =
            Except.ok r2 ∧
          run.calls = [initUpload n (getField options "media_type"),
            appendUpload (getField r1 "media_id_string") buf,
            finalizeUpload (getField r1 "media_id_string")])) := by
  refine ⟨_, uploadPhoto_ok fs post options buf n hr hs, ?_⟩
  rcases chain_spec post n (getField options "media_type") buf with
    ⟨e, h1, hc⟩ | ⟨r1, e, h1, h2, hc⟩ | ⟨r1, r2, e, h1, h2, h3, hc⟩ |
    ⟨r1, r2, r3, h1, h2, h3, hc⟩
  · rw [hc]
    exact Or.inl rfl
  · rw [hc]
    exact Or.inr (Or.inl ⟨r1, h1, rfl⟩)
  · rw [hc]
    exact Or.inr (Or.inr ⟨r1, r2, h1, h2, rfl⟩)
  · rw [hc]
    exact Or.inr (Or.inr ⟨r1, r2, h1, h2, rfl⟩)

/-- Claim C2: in every run whose INIT call resolves, each issued call
whose command is APPEND or FINALIZE carries a `media_id` equal to the
`media_id_string` field extracted from the INIT response. -/
theorem append_finalize_media_id (fs : FS)
    (post : Call → Except JsErr Response) (options : JsObject)
    (buf : Buffer) (n : Nat) (r1 : Response)
    (hr : fs.readFileSync (getField options "path_to_photo") = Except.ok buf)
    (hs : fs.statSize (getField options "path_to_photo") = Except.ok n)
    (hi : post (initUpload n (getField options "media_type")) =
      Except.ok r1) :
    ∃ run, uploadPhoto fs post options = Except.ok run ∧
      ∀ c ∈ run.calls,
        (getField c.body "command" = JsVal.str "APPEND" ∨
         getField c.body "command" = JsVal.str "FINALIZE") →
        getField c.body "media_id" = getField r1 "media_id_string" := by
  refine ⟨_, uploadPhoto_ok fs post options buf n hr hs, ?_⟩
  rcases chain_spec post n (getField options "media_type") buf with
    ⟨e, h1, hc⟩ | ⟨r1', e, h1, h2, hc⟩ | ⟨r1', r2, e, h1, h2, h3, hc⟩ |
    ⟨r1', r2, r3, h1, h2, h3, hc⟩
  · rw [hi] at h1
    exact absurd h1 (by simp)
  · rw [hi] at h1
    injection h1 with h1
    subst h1
    rw [hc]
    intro c hc' hcmd
    simp at hc'
    rcases hc' with h | h <;> subst h <;> simp_all
  · rw [hi] at h1
    injection h1 with h1
    subst h1
    rw [hc]
    intro c hc' hcmd
    simp at hc'
    rcases hc' with h | h | h <;> subst h <;> simp_all
  · rw [hi] at h1
    injection h1 with h1
    subst h1
    rw [hc]
    intro c hc' hcmd
    simp at hc'
    rcases hc' with h | h | h <;> subst h <;> simp_all

/-- Claim C4: a rejected INIT call leaves a trace of only the INIT
request (neither APPEND nor FINALIZE is issued), and a resolved INIT
followed by a rejected APPEND leaves a trace of only the INIT and APPEND
requests (FINALIZE is not issued). -/
theorem rejection_short_circuits (fs : FS)
    (post : Call → Except JsErr Response) (options : JsObject)
    (buf : Buffer) (n : Nat)
    (hr : fs.readFileSync (getField options "path_to_photo") = Except.ok buf)
    (hs : fs.statSize (getField options "path_to_photo") = Except.ok n) :
    (∀ e, post (initUpload n (getField options "media_type")) =
        Except.error e →
      ∃ run, uploadPhoto fs post options = Except.ok run ∧
        run.calls = [initUpload n (getField options "media_type")]) ∧
    (∀ r1 e, post (initUpload n (getField options "media_type")) =
        Except.ok r1 →
      post (appendUpload (getField r1 "media_id_string") buf) =
        Except.error e →
      ∃ run, uploadPhoto fs post options = Except.ok run ∧
        run.calls = [initUpload n (getField options "media_type"),
          appendUpload (getField r1 "media_id_string") buf]) := by
  constructor
  · intro e he
    refine ⟨_, uploadPhoto_ok fs post options buf n hr hs, ?_⟩
    unfold chain
    simp [he]
  · intro r1 e h1 h2
    refine ⟨_, uploadPhoto_ok fs post options buf n hr hs, ?_⟩
    unfold chain
    simp [h1, h2]

/-- Claim C7: in every run, each issued call whose command is APPEND
carries `segment_index = 0`, and at most one APPEND call is ever issued
(the media is never split into several segments). -/
theorem append_segment_index_zero (fs : FS)
    (post : Call → Except JsErr Response) (options : JsObject)
    (run : AsyncRun) (h : uploadPhoto fs post options = Except.ok run) :
    (∀ c ∈ run.calls, getField c.body "command" = JsVal.str "APPEND" →
       getField c.body "segment_index" = JsVal.num 0) ∧
    run.calls.countP
      (fun c => decide (getField c.body "command" = JsVal.str "APPEND")) ≤
      1 := by
  unfold uploadPhoto at h
  cases hr : fs.readFileSync (getField options "path_to_photo") with
  | error e =>
    rw [hr] at h
    simp at h
  | ok buf =>
    cases hs : fs.statSize (getField options "path_to_photo") with
    | error e =>
      rw [hr, hs] at h
      simp at h
    | ok n =>
      rw [hr, hs] at h
      simp at h
      rcases chain_spec post n (getField options "media_type") buf with
        ⟨e, h1, hc⟩ | ⟨r1, e, h1, h2, hc⟩ | ⟨r1, r2, e, h1, h2, h3, hc⟩ |
        ⟨r1, r2, r3, h1, h2, h3, hc⟩ <;>
      · rw [hc] at h
        rw [← h]
        constructor
        · intro c hc' hcmd
          simp at hc'
          first
          | (subst hc'; simp_all)
          | (rcases hc' with h' | h' <;> subst h' <;> simp_all)
          | (rcases hc' with h' | h' | h' <;> subst h' <;> simp_all)
        · simp [List.countP, List.countP.go]

/-- Claim C8: the first network call of every run whose synchronous prefix
succeeds is the INIT request, whose body carries `command = INIT`,
`total_bytes` equal to the file-system stat size (a quantity unrelated to
the buffer returned by `readFileSync`), and `media_type` equal to the
caller's declared `options.media_type`. -/
theorem init_request_shape (fs : FS) (post : Call → Except JsErr Response)
    (options : JsObject) (buf : Buffer) (n : Nat)
    (hr : fs.readFileSync (getField options "path_to_photo") = Except.ok buf)
    (hs : fs.statSize (getField options "path_to_photo") = Except.ok n) :
    ∃ run, uploadPhoto fs post options = Except.ok run ∧
      run.calls.head? =
        some (initUpload n (getField options "media_type")) ∧
      getField (initUpload n (getField options "media_type")).body
        "command" = JsVal.str "INIT" ∧
      getField (initUpload n (getField options "media_type")).body
        "total_bytes" = JsVal.num n ∧
      getField (initUpload n (getField options "media_type")).body
        "media_type" = getField options "media_type" := by
  refine ⟨_, uploadPhoto_ok fs post options buf n hr hs, ?_⟩
  rcases chain_spec post n (getField options "media_type") buf with
    ⟨e, h1, hc⟩ | ⟨r1, e, h1, h2, hc⟩ | ⟨r1, r2, e, h1, h2, h3, hc⟩ |
    ⟨r1, r2, r3, h1, h2, h3, hc⟩ <;> rw [hc] <;> simp

/-- Claim C9: when `fs.readFileSync` throws (missing or unreadable file),
`uploadPhoto` re-raises that error synchronously — the result is the
thrown error, not a settled promise — and no network call is issued. -/
theorem sync_throw_before_network (fs : FS)
    (post : Call → Except JsErr Response) (options : JsObject) (e : JsErr)
    (h : fs.readFileSync (getField options "path_to_photo") =
      Except.error e) :
    uploadPhoto fs post options = Except.error e ∧
    issuedCommands (uploadPhoto fs post options) = [] := by
  have h1 : uploadPhoto fs post options = Except.error e := by
    unfold uploadPhoto
    simp [h]
  refine ⟨h1, ?_⟩
  rw [h1]
  rfl

/-- Claim C10: `uploadPhoto` reads only the `media_type` and
`path_to_photo` fields of its options: two options objects agreeing on
those two fields produce identical runs, and every request body it sends
consists of exactly the fixed field list of its step, so no other
caller-supplied field is ever forwarded. -/
theorem upload_reads_only_two_fields :
    (∀ (fs : FS) (post : Call → Except JsErr Response) (o1 o2 : JsObject),
      getField o1 "media_type" = getField o2 "media_type" →
      getField o1 "path_to_photo" = getField o2 "path_to_photo" →
      uploadPhoto fs post o1 = uploadPhoto fs post o2) ∧
    (∀ (fs : FS) (post : Call → Except JsErr Response) (o : JsObject)
       (run : AsyncRun), uploadPhoto fs post o = Except.ok run →
      ∀ c ∈ run.calls,
        c.body.map Prod.fst = ["command", "total_bytes", "media_type"] ∨
        c.body.map Prod.fst =
          ["command", "media_id", "media", "segment_index"] ∨
        c.body.map Prod.fst = ["command", "media_id"]) := by
  constructor
  · intro fs post o1 o2 h1 h2
    unfold uploadPhoto
    rw [h1, h2]
  · intro fs post o run h
    unfold uploadPhoto at h
    cases hr : fs.readFileSync (getField o "path_to_photo") with
    | error e =>
      rw [hr] at h
      simp at h
    | ok buf =>
      cases hs : fs.statSize (getField o "path_to_photo") with
      | error e =>
        rw [hr, hs] at h
        simp at h
      | ok n =>
        rw [hr, hs] at h
        simp at h
        rcases chain_spec post n (getField o "media_type") buf with
          ⟨e, h1, hc⟩ | ⟨r1, e, h1, h2, hc⟩ | ⟨r1, r2, e, h1, h2, h3, hc⟩ |
          ⟨r1, r2, r3, h1, h2, h3, hc⟩ <;>
        · rw [hc] at h
          rw [← h]
          intro c hc'
          simp at hc'
          first
          | (subst hc'; simp [initUpload])
          | (rcases hc' with h' | h' <;> subst h' <;>
              simp [initUpload, appendUpload])
          | (rcases hc' with h' | h' | h' <;> subst h' <;>
              simp [initUpload, appendUpload, finalizeUpload])

/-- Claim C3 is false on the code: with a file system on which both
synchronous calls succeed and a transport that resolves every call with an
empty object — so the INIT call resolves, and its response has no
`media_id_string` field — the run still issues all three calls, APPEND
included.  (JavaScript property access on a missing field yields
`undefined`, and the promise chain continues with it.) -/
theorem missing_session_id_counterexample :
    postNoId (initUpload 99 (JsVal.str "image/jpeg")) = Except.ok [] ∧
    getField ([] : Response) "media_id_string" = JsVal.undef ∧
    issuedCommands (uploadPhoto fsDemo postNoId optsDemo) =
      [JsVal.str "INIT", JsVal.str "APPEND", JsVal.str "FINALIZE"] :=
  ⟨rfl, rfl, rfl⟩

/-- Claim C3 (amended): if the INIT call resolves but its response omits
`media_id_string`, `uploadPhoto` still issues the APPEND call, with its
`media_id` field set to the undefined value. -/
theorem missing_session_id_still_appends (fs : FS)
    (post : Call → Except JsErr Response) (options : JsObject)
    (buf : Buffer) (n : Nat) (r1 : Response)
    (hr : fs.readFileSync (getField options "path_to_photo") = Except.ok buf)
    (hs : fs.statSize (getField options "path_to_photo") = Except.ok n)
    (hi : post (initUpload n (getField options "media_type")) =
      Except.ok r1)
    (hm : getField r1 "media_id_string" = JsVal.undef) :
    ∃ run, uploadPhoto fs post options = Except.ok run ∧
      appendUpload JsVal.undef buf ∈ run.calls := by
  refine ⟨_, uploadPhoto_ok fs post options buf n hr hs, ?_⟩
  rcases chain_spec post n (getField options "media_type") buf with
    ⟨e, h1, hc⟩ | ⟨r1', e, h1, h2, hc⟩ | ⟨r1', r2, e, h1, h2, h3, hc⟩ |
    ⟨r1', r2, r3, h1, h2, h3, hc⟩
  · rw [hi] at h1
    exact absurd h1 (by simp)
  all_goals
    rw [hi] at h1
    injection h1 with h1
    subst h1
    rw [hc, hm]
    simp

/-- Claim C5: every facade method forwards a transport rejection untouched
as its own result, while `uploadPhoto` (whose synchronous prefix succeeds)
always returns a promise that settles by resolution — any step's rejection
is caught by the terminal handler, the error is logged, and the promise
resolves with `undefined` (no usable result). -/
theorem error_propagation_policy :
    (∀ (α ρ ε : Type) (t : Transport α ρ ε) (o : α) (e : ε),
      (t.get "statuses/retweeters/ids" o = Except.error e →
        (getRetweeters t o).2 = Except.error e) ∧
      (t.get "statuses/retweets" o = Except.error e →
        (getRetweets t o).2 = Except.error e) ∧
      (t.get "statuses/show" o = Except.error e →
        (showTweet t o).2 = Except.error e) ∧
      (t.get "statuses/user_timeline" o = Except.error e →
        (showUserTweets t o).2 = Except.error e) ∧
      (t.get "search/tweets" o = Except.error e →
        (searchTweets t o).2 = Except.error e) ∧
      (t.get "users/search" o = Except.error e →
        (searchUsers t o).2 = Except.error e) ∧
      (t.get "users/show" o = Except.error e →
        (showUser t o).2 = Except.error e) ∧
      (t.post "statuses/update" o = Except.error e →
        (postStatus t o).2 = Except.error e) ∧
      (t.post "direct_messages/events/new" o = Except.error e →
        (sendMessage t o).2 = Except.error e)) ∧
    (∀ (fs : FS) (post : Call → Except JsErr Response) (options : JsObject)
       (buf : Buffer) (n : Nat),
      fs.readFileSync (getField options "path_to_photo") = Except.ok buf →
      fs.statSize (getField options "path_to_photo") = Except.ok n →
      ∃ run, uploadPhoto fs post options = Except.ok run ∧
        (∃ v, run.outcome = Except.ok v) ∧
        (∀ e, post (initUpload n (getField options "media_type")) =
            Except.error e →
          run.logged = some e ∧ run.outcome = Except.ok none) ∧
        (∀ r1 e, post (initUpload n (getField options "media_type")) =
            Except.ok r1 →
          post (appendUpload (getField r1 "media_id_string") buf) =
            Except.error e →
          run.logged = some e ∧ run.outcome = Except.ok none) ∧
        (∀ r1 r2 e, post (initUpload n (getField options "media_type")) =
            Except.ok r1 →
          post (appendUpload (getField r1 "media_id_string") buf) =
            Except.ok r2 →
          post (finalizeUpload (getField r1 "media_id_string")) =
            Except.error e →
          run.logged = some e ∧ run.outcome = Except.ok none)) := by
  constructor
  · intro α ρ ε t o e
    exact ⟨fun h => h, fun h => h, fun h => h, fun h => h, fun h => h,
      fun h => h, fun h => h, fun h => h, fun h => h⟩
  · intro fs post options buf n hr hs
    refine ⟨_, uploadPhoto_ok fs post options buf n hr hs, ?_⟩
    rcases chain_spec post n (getField options "media_type") buf with
      ⟨e, h1, hc⟩ | ⟨r1, e, h1, h2, hc⟩ | ⟨r1, r2, e, h1, h2, h3, hc⟩ |
      ⟨r1, r2, r3, h1, h2, h3, hc⟩
    · refine ⟨⟨none, by rw [hc]⟩, ?_, ?_, ?_⟩
      · intro e' he'
        rw [h1] at he'
        injection he' with he'
        subst he'
        rw [hc]
        exact ⟨rfl, rfl⟩
      · intro r1 e' hi _
        rw [h1] at hi
        exact absurd hi (by simp)
      · intro r1 r2 e' hi _ _
        rw [h1] at hi
        exact absurd hi (by simp)
    · refine ⟨⟨none, by rw [hc]⟩, ?_, ?_, ?_⟩
      · intro e' he'
        rw [h1] at he'
        exact absurd he' (by simp)
      · intro r1' e' hi ha
        rw [h1] at hi
        injection hi with hi
        subst hi
        rw [h2] at ha
        injection ha with ha
        subst ha
        rw [hc]
        exact ⟨rfl, rfl⟩
      · intro r1' r2 e' hi ha _
        rw [h1] at hi
        injection hi with hi
        subst hi
        rw [h2] at ha
        exact absurd ha (by simp)
    · refine ⟨⟨none, by rw [hc]⟩, ?_, ?_, ?_⟩
      · intro e' he'
        rw [h1] at he'
        exact absurd he' (by simp)
      · intro r1' e' hi ha
        rw [h1] at hi
        injection hi with hi
        subst hi
        rw [h2] at ha
        exact absurd ha (by simp)
      · intro r1' r2' e' hi ha hf
        rw [h1] at hi
        injection hi with hi
        subst hi
        rw [h3] at hf
        injection hf with hf
        subst hf
        rw [hc]
        exact ⟨rfl, rfl⟩
    · refine ⟨⟨some r3, by rw [hc]⟩, ?_, ?_, ?_⟩
      · intro e' he'
        rw [h1] at he'
        exact absurd he' (by simp)
      · intro r1' e' hi ha
        rw [h1] at hi
        injection hi with hi
        subst hi
        rw [h2] at ha
        exact absurd ha (by simp)
      · intro r1' r2' e' hi _ hf
        rw [h1] at hi
        injection hi with hi
        subst hi
        rw [h3] at hf
        exact absurd hf (by simp)

/-- Claim C6: each facade method performs exactly one call to its
transport primitive — with its fixed endpoint path of the §6 table, its
verb (read or write), and the caller's options value unmodified as second
argument — and returns exactly the transport's settled result. -/
theorem facade_passthrough :
    ∀ (α ρ ε : Type) (t : Transport α ρ ε) (o : α),
      getRetweeters t o = ([⟨Verb.read, "statuses/retweeters/ids", o⟩],
        t.get "statuses/retweeters/ids" o) ∧
      getRetweets t o = ([⟨Verb.read, "statuses/retweets", o⟩],
        t.get "statuses/retweets" o) ∧
      showTweet t o = ([⟨Verb.read, "statuses/show", o⟩],
        t.get "statuses/show" o) ∧
      showUserTweets t o = ([⟨Verb.read, "statuses/user_timeline", o⟩],
        t.get "statuses/user_timeline" o) ∧
      searchTweets t o = ([⟨Verb.read, "search/tweets", o⟩],
        t.get "search/tweets" o) ∧
      searchUsers t o = ([⟨Verb.read, "users/search", o⟩],
        t.get "users/search" o) ∧
      showUser t o = ([⟨Verb.read, "users/show", o⟩],
        t.get "users/show" o) ∧
      postStatus t o = ([⟨Verb.write, "statuses/update", o⟩],
        t.post "statuses/update" o) ∧
      sendMessage t o = ([⟨Verb.write, "direct_messages/events/new", o⟩],
        t.post "direct_messages/events/new" o) := by
  intro α ρ ε t o
  exact ⟨rfl, rfl, rfl, rfl, rfl, rfl, rfl, rfl, rfl⟩

/-! ## Witnesses: the claim theorems applied at concrete inputs -/

/-- Witness for C1 at a concrete file system, transport and options. -/
theorem upload_call_order_witness :
    ∃ run, uploadPhoto fsDemo postDemo optsDemo = Except.ok run ∧
      (run.calls = [initUpload 99 (JsVal.str "image/jpeg")] ∨
       (∃ r1, postDemo (initUpload 99 (JsVal.str "image/jpeg")) =
            Except.ok r1 ∧
          run.calls = [initUpload 99 (JsVal.str "image/jpeg"),
            appendUpload (getField r1 "media_id_string") [10, 20, 30]]) ∨
       (∃ r1 r2, postDemo (initUpload 99 (JsVal.str "image/jpeg")) =
            Except.ok r1 ∧
          postDemo (appendUpload (getField r1 "media_id_string")
            [10, 20, 30]) = Except.ok r2 ∧
          run.calls = [initUpload 99 (JsVal.str "image/jpeg"),
            appendUpload (getField r1 "media_id_string") [10, 20, 30],
            finalizeUpload (getField r1 "media_id_string")])) := by
  exact upload_call_order fsDemo postDemo optsDemo [10, 20, 30] 99 rfl rfl

/-- Witness for C2 at a concrete run whose INIT response carries
`media_id_string = "711"`. -/
theorem append_finalize_media_id_witness :
    ∃ run, uploadPhoto fsDemo postDemo optsDemo = Except.ok run ∧
      ∀ c ∈ run.calls,
        (getField c.body "command" = JsVal.str "APPEND" ∨
         getField c.body "command" = JsVal.str "FINALIZE") →
        getField c.body "media_id" =
          getField [("media_id_string", JsVal.str "711")]
            "media_id_string" := by
  exact append_finalize_media_id fsDemo postDemo optsDemo [10, 20, 30] 99
    [("media_id_string", JsVal.str "711")] rfl rfl rfl

/-- Witness for C4: a transport rejecting INIT yields the one-call trace,
and a transport resolving INIT but rejecting APPEND yields the two-call
trace. -/
theorem rejection_short_circuits_witness :
    (∃ run, uploadPhoto fsDemo postFail optsDemo = Except.ok run ∧
       run.calls = [initUpload 99 (JsVal.str "image/jpeg")]) ∧
    (∃ run, uploadPhoto fsDemo postFailAppend optsDemo = Except.ok run ∧
       run.calls = [initUpload 99 (JsVal.str "image/jpeg"),
         appendUpload (JsVal.str "711") [10, 20, 30]]) := by
  exact ⟨(rejection_short_circuits fsDemo postFail optsDemo [10, 20, 30] 99
      rfl rfl).1 "network down" rfl,
    (rejection_short_circuits fsDemo postFailAppend optsDemo [10, 20, 30] 99
      rfl rfl).2 [("media_id_string", JsVal.str "711")] "append down"
      rfl rfl⟩

/-- Witness for C7 at the concrete successful run `runDemo`. -/
theorem append_segment_index_zero_witness :
    (∀ c ∈ runDemo.calls,
       getField c.body "command" = JsVal.str "APPEND" →
       getField c.body "segment_index" = JsVal.num 0) ∧
    runDemo.calls.countP
      (fun c => decide (getField c.body "command" = JsVal.str "APPEND")) ≤
      1 := by
  exact append_segment_index_zero fsDemo postDemo optsDemo runDemo rfl

/-- Witness for C8: with a buffer of length 3 but a stat size of 99, the
INIT body declares `total_bytes = 99` (the stat size, not the buffer
length). -/
theorem init_request_shape_witness :
    ∃ run, uploadPhoto fsDemo postDemo optsDemo = Except.ok run ∧
      run.calls.head? =
        some (initUpload 99 (JsVal.str "image/jpeg")) ∧
      getField (initUpload 99 (JsVal.str "image/jpeg")).body "command" =
        JsVal.str "INIT" ∧
      getField (initUpload 99 (JsVal.str "image/jpeg")).body
        "total_bytes" = JsVal.num 99 ∧
      getField (initUpload 99 (JsVal.str "image/jpeg")).body
        "media_type" = JsVal.str "image/jpeg" := by
  exact init_request_shape fsDemo postDemo optsDemo [10, 20, 30] 99 rfl rfl

/-- Witness for C9 at a file system whose `readFileSync` throws. -/
theorem sync_throw_before_network_witness :
    uploadPhoto fsBad postDemo optsDemo = Except.error "ENOENT" ∧
    issuedCommands (uploadPhoto fsBad postDemo optsDemo) = [] := by
  exact sync_throw_before_network fsBad postDemo optsDemo "ENOENT" rfl

/-- Witness for C10: two concrete options objects agreeing only on the
two read fields give the same run, and the concrete run `runDemo` sends
only the fixed field lists. -/
theorem upload_reads_only_two_fields_witness :
    uploadPhoto fsDemo postDemo optsDemo =
      uploadPhoto fsDemo postDemo optsDemo2 ∧
    (∀ c ∈ runDemo.calls,
       c.body.map Prod.fst = ["command", "total_bytes", "media_type"] ∨
       c.body.map Prod.fst =
         ["command", "media_id", "media", "segment_index"] ∨
       c.body.map Prod.fst = ["command", "media_id"]) := by
  exact ⟨upload_reads_only_two_fields.1 fsDemo postDemo optsDemo optsDemo2
      rfl rfl,
    upload_reads_only_two_fields.2 fsDemo postDemo optsDemo runDemo rfl⟩

/-- Witness for the amended C3 at the transport whose INIT response is an
empty object. -/
theorem missing_session_id_still_appends_witness :
    ∃ run, uploadPhoto fsDemo postNoId optsDemo = Except.ok run ∧
      appendUpload JsVal.undef [10, 20, 30] ∈ run.calls := by
  exact missing_session_id_still_appends fsDemo postNoId optsDemo
    [10, 20, 30] 99 [] rfl rfl rfl rfl

/-- Witness for C5: a rejecting read transport's error comes back
untouched from a facade method, while an upload whose INIT call rejects
with `"network down"` logs exactly that error and resolves with
`undefined` (no usable result). -/
theorem error_propagation_policy_witness :
    (getRetweeters tErr 0).2 = Except.error "boom" ∧
    (∃ run, uploadPhoto fsDemo postFail optsDemo = Except.ok run ∧
       run.logged = some "network down" ∧
       run.outcome = Except.ok none) := by
  refine ⟨(error_propagation_policy.1 Nat Nat String tErr 0 "boom").1 rfl, ?_⟩
  obtain ⟨run, hru, -, hinit, -, -⟩ :=
    error_propagation_policy.2 fsDemo postFail optsDemo [10, 20, 30] 99
      rfl rfl
  obtain ⟨hl, ho⟩ := hinit "network down" rfl
  exact ⟨run, hru, hl, ho⟩

end Twitter
